import Mathlib

/-!
# Verification of the Trip Planner core (`src/`)

Shallow embedding of the validation layer (`src/utils/validators.py`), the
trip archive (`src/services/storage_service.py`), the geocoder
(`src/services/location_service.py`) and the conversational planner
(`src/services/agent_service.py`), with theorems settling the spec claims.

Python strings are modelled as `List Char`; Python exceptions as `Except`
results; the archive's backing file as an explicit state value threaded
through the operations; the chat model and the tool executor as function
parameters.
-/

/-- Python strings are modelled as lists of characters. -/
abbrev Str := List Char

/-- Coerce a Lean string literal to the model type. -/
def str (s : String) : Str := s.data

/-- Whitespace as recognised by Python's `str.strip()` (ASCII subset:
space, tab, newline, vertical tab, form feed, carriage return). -/
def isWS (c : Char) : Bool :=
  c.toNat == 32 || c.toNat == 9 || c.toNat == 10 ||
  c.toNat == 11 || c.toNat == 12 || c.toNat == 13

/-- Python `str.strip()`: drop whitespace from both ends. -/
def pyStrip (s : Str) : Str :=
  ((s.dropWhile isWS).reverse.dropWhile isWS).reverse

/-- Python `str.lower()` on a single character (ASCII range, the range
exercised by the program's inputs). -/
def pyLowerChar (c : Char) : Char :=
  if 65 ≤ c.toNat ∧ c.toNat ≤ 90 then Char.ofNat (c.toNat + 32) else c

/-- Python `str.lower()`. -/
def pyLower (s : Str) : Str := s.map pyLowerChar

/-- Left-associated Python `or` on two optional strings: the left operand
wins when it is truthy (present and non-empty), otherwise the right
operand is the value. -/
def pyOrS : Option Str → Option Str → Option Str
  | some s, b => if s = [] then b else some s
  | none, b => b

/-- Python slicing `xs[:n]`: a non-negative bound takes a plain leading
segment, a negative bound counts from the end. -/
def pySliceTo (n : Int) (xs : List α) : List α :=
  if 0 ≤ n then xs.take n.toNat else xs.take (xs.length - (-n).toNat)

/-- Python string comparison `a <= b` (lexicographic on code points),
used by the archive's timestamp sort. -/
def strLE : Str → Str → Bool
  | [], _ => true
  | _ :: _, [] => false
  | a :: as, b :: bs =>
    if a.toNat < b.toNat then true
    else if b.toNat < a.toNat then false
    else strLE as bs

namespace TripValidator

/-- `TripValidator.validate_location` (validators.py lines 17-47): fails on
an empty-after-strip value, on fewer than 2 or more than 100 characters,
or on any of the characters matched by the pattern on line 44 (angle
brackets, braces, square brackets, backslash); the character tests run on
the stripped value. -/
def validate_location (location : Str) (field_name : Str) : Except Str Bool :=
  if location = [] ∨ pyStrip location = [] then
    .error (field_name ++ str " cannot be empty")
  else
    let location := pyStrip location
    if location.length < 2 then
      .error (field_name ++ str " must be at least 2 characters")
    else if 100 < location.length then
      .error (field_name ++ str " name is too long (max 100 characters)")
    else if location.any (fun c =>
        c == '<' || c == '>' || c == Char.ofNat 123 || c == Char.ofNat 125 ||
        c == '[' || c == ']' || c == '\\') then
      .error (field_name ++ str " contains invalid characters")
    else .ok true

/-- `TripValidator.validate_people_count` (validators.py lines 49-66):
fails for counts below 1 or above 50, succeeds otherwise (returning
Python's `True`). The claims range over integers, so the `isinstance`
check is vacuous and not modelled. -/
def validate_people_count (count : Int) : Except Str Bool :=
  if count < 1 then .error (str "At least 1 traveler is required")
  else if count > 50 then .error (str "Maximum 50 travelers allowed")
  else .ok true

/-- `TripValidator.validate_days` (validators.py lines 68-85): fails for
durations below 1 or above 365, succeeds otherwise. -/
def validate_days (days : Int) : Except Str Bool :=
  if days < 1 then .error (str "Trip must be at least 1 day")
  else if days > 365 then .error (str "Maximum trip duration is 365 days")
  else .ok true

/-- `TripValidator.validate_same_location` (validators.py lines 87-98):
fails when `from_loc.lower().strip() == to_loc.lower().strip()`. -/
def validate_same_location (from_loc to_loc : Str) : Except Str Bool :=
  if pyStrip (pyLower from_loc) = pyStrip (pyLower to_loc) then
    .error (str "Departure and destination cannot be the same")
  else .ok true

/-- Position just after the first `>` in the input, if any (helper for the
tag pattern `<[^>]+>`). -/
def findGtIdx : Str → Option Nat
  | [] => none
  | c :: rest => if c == '>' then some 1 else (findGtIdx rest).map (· + 1)

/-- Given the characters after a `<`, the number of characters the pattern
`[^>]+>` consumes there: at least one non-`>` character, then everything
up to and including the first `>`. `none` when the pattern cannot match
at this `<`. -/
def findTagEnd : Str → Option Nat
  | [] => none
  | c :: rest => if c == '>' then none else (findGtIdx rest).map (· + 1)

/-- Left-to-right scan for `re.sub(r'<[^>]+>', '', text)`: `skip` counts
characters still inside a match being dropped; at `skip = 0` a `<` starts
a new match when `findTagEnd` succeeds on the remainder, and every other
character is kept. -/
def removeTagsGo : Str → Nat → Str
  | [], _ => []
  | _ :: rest, skip + 1 => removeTagsGo rest skip
  | c :: rest, 0 =>
    if c == '<' then
      match findTagEnd rest with
      | some k => removeTagsGo rest k
      | none => c :: removeTagsGo rest 0
    else c :: removeTagsGo rest 0

/-- `re.sub(r'<[^>]+>', '', text)` (validators.py line 179): remove every
leftmost non-overlapping match of the tag pattern. -/
def removeTags (s : Str) : Str := removeTagsGo s 0

/-- Case-insensitive "starts with" for an (already lowercase) pattern,
modelling `re.IGNORECASE` literal matching. -/
def startsWithCI (pat s : Str) : Bool :=
  (s.take pat.length).map pyLowerChar == pat

/-- Position just after the first case-insensitive occurrence of
`</script>` in the input, if any. -/
def findScriptCloseIdx : Str → Option Nat
  | [] => none
  | c :: rest =>
    if startsWithCI (str "</script>") (c :: rest) then some 9
    else (findScriptCloseIdx rest).map (· + 1)

/-- Left-to-right scan for the script-block removal: at `skip = 0` a
case-insensitive `<script` whose remainder contains `</script>` starts a
lazy match (the 6 remaining pattern characters plus everything through the
nearest close are dropped); other characters are kept. -/
def removeScriptGo : Str → Nat → Str
  | [], _ => []
  | _ :: rest, skip + 1 => removeScriptGo rest skip
  | c :: rest, 0 =>
    if startsWithCI (str "<script") (c :: rest) then
      match findScriptCloseIdx ((c :: rest).drop 7) with
      | some k => removeScriptGo rest (6 + k)
      | none => c :: removeScriptGo rest 0
    else c :: removeScriptGo rest 0

/-- `re.sub` of the script pattern with DOTALL and IGNORECASE
(validators.py line 182): remove every leftmost non-overlapping lazy match
of `<script` through the nearest following `</script>`. -/
def removeScript (s : Str) : Str := removeScriptGo s 0

/-- `TripValidator.sanitize_text_input` (validators.py lines 163-191):
empty input maps to empty output; otherwise remove HTML tags, then script
blocks, strip whitespace, and truncate to `max_length` characters with an
appended `"..."` when the stripped text is longer than `max_length`. -/
def sanitize_text_input (text : Str) (max_length : Nat) : Str :=
  if text = [] then []
  else
    let text := removeTags text
    let text := removeScript text
    let text := pyStrip text
    if max_length < text.length then text.take max_length ++ str "..."
    else text

/-- `sanitize_text_input` at its declared default `max_length` (the source
default on line 164 is 500). -/
def sanitize_text_input_default (text : Str) : Str :=
  sanitize_text_input text 500

/-- The input bundle consumed by `validate_complete_trip_input`: the keys
the validator reads, with a missing `notes` key as `none` and missing
city/count keys behaving as the dict-lookup defaults `''` and `0`. -/
structure TripData where
  from_city : Str
  to_city : Str
  people : Int
  days : Int
  notes : Option Str
deriving DecidableEq

/-- The messages a `try/except ValidationError` block contributes to the
composite validator's `errors` list: one on failure, none on success. -/
def errOf : Except Str Bool → List Str
  | .error e => [e]
  | .ok _ => []

/-- The `errors` list built by `validate_complete_trip_input`
(validators.py lines 207-239): departure location, destination, the
same-location check (only when both city values are truthy), people,
days — in that order. -/
def collectedErrors (d : TripData) : List Str :=
  errOf (validate_location d.from_city (str "Departure location")) ++
  errOf (validate_location d.to_city (str "Destination")) ++
  (if d.from_city ≠ [] ∧ d.to_city ≠ [] then
    errOf (validate_same_location d.from_city d.to_city)
  else []) ++
  errOf (validate_people_count d.people) ++
  errOf (validate_days d.days)

/-- `TripValidator.validate_complete_trip_input` (validators.py lines
193-252): collect each check's failure message, sanitize `notes` (when
present) with `max_length=1000`, then fail with all messages joined by
newlines if any check failed, otherwise return the bundle. -/
def validate_complete_trip_input (trip_data : TripData) : Except Str TripData :=
  let errors := collectedErrors trip_data
  let trip_data :=
    { trip_data with
      notes := trip_data.notes.map (fun n => sanitize_text_input n 1000) }
  if errors ≠ [] then .error (List.intercalate (str "\n") errors)
  else .ok trip_data

end TripValidator

/-- `TripRecord` (storage_service.py lines 15-34). -/
structure TripRecord where
  id : Str
  timestamp : Str
  from_city : Str
  to_city : Str
  days : Int
  people : Int
  group_type : Str
  trip_plan : Str
deriving DecidableEq

/-- State of the archive's backing JSON file: either well-formed records
or content that fails to decode. -/
inductive FileContent where
  | malformed
  | good (records : List TripRecord)
deriving DecidableEq

namespace TripStorage

/-- `TripStorage._read_data` (storage_service.py lines 56-66): decode
failures degrade to the empty collection. -/
def read_data : FileContent → List TripRecord
  | .malformed => []
  | .good records => records

/-- `TripStorage.save_trip` (storage_service.py lines 78-127): append a
new record built from the arguments to the decoded collection and rewrite
the file. The generated id and ISO timestamp (lines 102-103, both read
from the clock) are passed in as `trip_id` and `timestamp`; the modelled
file write succeeds, so the new id is returned. -/
def save_trip (file : FileContent) (trip_id timestamp : Str)
    (from_city to_city : Str) (days people : Int)
    (group_type trip_plan : Str) : FileContent × Option Str :=
  let record : TripRecord :=
    ⟨trip_id, timestamp, from_city, to_city, days, people, group_type, trip_plan⟩
  let data := read_data file
  (.good (data ++ [record]), some trip_id)

/-- `TripStorage.get_trip` (storage_service.py lines 129-147): first
record whose id matches, else not-found. -/
def get_trip (file : FileContent) (trip_id : Str) : Option TripRecord :=
  (read_data file).find? (fun record => record.id == trip_id)

/-- `TripStorage.get_all_trips` (storage_service.py lines 149-170): sort
by timestamp descending (Python's stable sort with `reverse=True`), then
slice to `limit` only when `limit` is truthy (not `None` and not 0). -/
def get_all_trips (file : FileContent) (limit : Option Int) : List TripRecord :=
  let data := read_data file
  let sorted := data.mergeSort (fun a b => strLE b.timestamp a.timestamp)
  match limit with
  | none => sorted
  | some n => if n ≠ 0 then pySliceTo n sorted else sorted

/-- `TripStorage.delete_trip` (storage_service.py lines 172-196): drop all
records with the id; rewrite the file and report `true` only when the
collection shrank. -/
def delete_trip (file : FileContent) (trip_id : Str) : FileContent × Bool :=
  let data := read_data file
  let filtered := data.filter (fun record => !(record.id == trip_id))
  if filtered.length < data.length then (.good filtered, true)
  else (file, false)

/-- `TripStorage.clear_all` (storage_service.py lines 198-212): rewrite
the file as the empty collection. -/
def clear_all (file : FileContent) : FileContent × Bool :=
  (.good [], true)

end TripStorage

/-- The `address` sub-object of a raw Nominatim result; absent keys are
`none` (Python's `dict.get` default). -/
structure RawAddress where
  city : Option Str
  town : Option Str
  village : Option Str
  state : Option Str
  country : Option Str
deriving DecidableEq

/-- A raw Nominatim result (`display_name`, coordinates, nested address);
the numeric coordinate values are modelled as rationals, abstracting
`float(...)` conversion. -/
structure RawPlace where
  display_name : Str
  lat : Rat
  lon : Rat
  address : RawAddress
deriving DecidableEq

/-- `Location` (location_service.py lines 15-24). -/
structure Location where
  name : Str
  label : Str
  lat : Rat
  lon : Rat
  city : Option Str
  state : Option Str
  country : Option Str
deriving DecidableEq

/-- `Location.from_nominatim` (location_service.py lines 26-48): `city` is
the Python `or`-chain of the address's city, town and village values;
`state` and `country` pass through. -/
def Location.from_nominatim (data : RawPlace) : Location :=
  { name := data.display_name
    label := data.display_name
    lat := data.lat
    lon := data.lon
    city := pyOrS (pyOrS data.address.city data.address.town) data.address.village
    state := data.address.state
    country := data.address.country }

/-- The `city` derivation as claim C8 words it: the first of the town,
city, village fields — in that precedence order — present in the raw
address. Written from the claim, to compare with the code's derivation. -/
def cityPerClaim (a : RawAddress) : Option Str :=
  pyOrS (pyOrS a.town a.city) a.village

/-- Failures the HTTP layer can raise at the geocoder: timeout, request
error, or anything else — all caught by `search`. -/
inductive TransportError where
  | timeout
  | requestFailed (msg : Str)
  | other (msg : Str)
deriving DecidableEq

/-- The HTTP GET underneath `LocationService.search`, as a function from
the (stripped) query to raw results or a transport failure. -/
abbrev Transport := Str → Except TransportError (List RawPlace)

/-- `LocationService.search` (location_service.py lines 87-142), with the
number of network calls made recorded in the second component: an empty or
whitespace-only query short-circuits to an empty list with zero calls;
otherwise one GET is made and every transport failure degrades to an empty
list. -/
def LocationService.search (transport : Transport) (query : Str) :
    List Location × Nat :=
  if query = [] ∨ pyStrip query = [] then ([], 0)
  else
    match transport (pyStrip query) with
    | .ok results => (results.map Location.from_nominatim, 1)
    | .error _ => ([], 1)

/-- A tool invocation requested by the model (call id, tool name,
argument payload). -/
structure ToolCall where
  id : Str
  name : Str
  args : Str
deriving DecidableEq

/-- Conversation messages (System/Human/AI/Tool messages). -/
inductive Msg where
  | system (content : Str)
  | human (content : Str)
  | ai (content : Str) (tool_calls : List ToolCall)
  | tool (content : Str) (tool_call_id : Str)
deriving DecidableEq

/-- The content field of a message (`str(...)` of a message is modelled as
its content). -/
def Msg.content : Msg → Str
  | .system c => c
  | .human c => c
  | .ai c _ => c
  | .tool c _ => c

/-- Whether a message is a `SystemMessage`. -/
def Msg.isSystem : Msg → Bool
  | .system _ => true
  | _ => false

/-- The bound chat model (`self.llm_with_tools.invoke`): from the
conversation, either an assistant reply (content and requested tool
calls), or a raised exception carrying its text. -/
abbrev Model := List Msg → Except Str (Str × List ToolCall)

namespace TripGenieAgent

/-- `TripGenieAgent._agent_node` (agent_service.py lines 95-127): prepend
the system prompt when absent, invoke the model, and on any exception
substitute an assistant message explaining the error instead of raising. -/
def agent_node (model : Model) (sysPrompt : Str) (messages : List Msg) : Msg :=
  let messages :=
    match messages with
    | [] => [Msg.system sysPrompt]
    | m :: _ => if m.isSystem then messages else Msg.system sysPrompt :: messages
  match model messages with
  | .ok (content, tool_calls) => .ai content tool_calls
  | .error e =>
    .ai (str "I encountered an error while processing your request: " ++ e ++
      str ". Please try again or rephrase your query.") []

/-- The compiled LangGraph loop (`_build_graph`, agent_service.py lines
129-149): agent turn, then — while the assistant message requests tool
calls (`tools_condition`) — a tool turn appending one tool message per
requested call (`ToolNode`), and back to the agent. The source loop has no
iteration ceiling; `fuel` bounds the recursion in the model and is chosen
by the caller at least as large as the run needs. -/
def runGraph (model : Model) (sysPrompt : Str) (toolExec : ToolCall → Str) :
    Nat → List Msg → List Msg
  | 0, messages => messages
  | fuel + 1, messages =>
    let response := agent_node model sysPrompt messages
    let messages' := messages ++ [response]
    match response with
    | .ai _ tool_calls =>
      if tool_calls = [] then messages'
      else
        runGraph model sysPrompt toolExec fuel
          (messages' ++ tool_calls.map (fun tc => Msg.tool (toolExec tc) tc.id))
    | _ => messages'

/-- `TripGenieAgent.generate_trip_plan` (agent_service.py lines 151-181):
run the graph from a single human message and return the final message's
content (`str(...)` of it when it is not an assistant message). The outer
`except` branch is unreachable here because every failure is already
absorbed inside the graph. -/
def generate_trip_plan (model : Model) (sysPrompt : Str)
    (toolExec : ToolCall → Str) (fuel : Nat) (query : Str) : Str :=
  let result := runGraph model sysPrompt toolExec fuel [Msg.human query]
  match result.getLast? with
  | some m => m.content
  | none => []

end TripGenieAgent

/-- `Char.ofNat` of a valid code point recovers the code point. -/
theorem char_toNat_ofNat (n : Nat) (h : n < 55296) : (Char.ofNat n).toNat = n := by
  rw [Char.ofNat, dif_pos (Or.inl h)]
  simp [Char.ofNatAux, Char.toNat, UInt32.ofNat', BitVec.ofNatLt, UInt32.toNat]

/-- Lowercasing a character preserves whether it is whitespace. -/
theorem isWS_pyLowerChar (c : Char) : isWS (pyLowerChar c) = isWS c := by
  unfold pyLowerChar
  split
  · next h =>
    have l : isWS (Char.ofNat (c.toNat + 32)) = false := by
      simp [isWS, char_toNat_ofNat (c.toNat + 32) (by omega)]; omega
    have r : isWS c = false := by
      simp [isWS]; omega
    rw [l, r]
  · rfl

/-- Stripping after lowering equals lowering after stripping. -/
theorem pyStrip_pyLower (s : Str) : pyStrip (pyLower s) = pyLower (pyStrip s) := by
  have hp : (isWS ∘ pyLowerChar) = isWS := funext fun c => isWS_pyLowerChar c
  unfold pyStrip pyLower
  rw [List.dropWhile_map, hp, ← List.map_reverse, List.dropWhile_map, hp,
    ← List.map_reverse]

/-- C4: integer people counts outside [1,50] and day counts outside [1,365]
fail `validate_people_count` / `validate_days` with the corresponding
message; the boundary values 1, 50, 1 and 365 all succeed. -/
theorem people_days_bounds :
    (∀ c : Int, c < 1 →
      TripValidator.validate_people_count c =
        .error (str "At least 1 traveler is required")) ∧
    (∀ c : Int, 50 < c →
      TripValidator.validate_people_count c =
        .error (str "Maximum 50 travelers allowed")) ∧
    TripValidator.validate_people_count 1 = .ok true ∧
    TripValidator.validate_people_count 50 = .ok true ∧
    (∀ d : Int, d < 1 →
      TripValidator.validate_days d = .error (str "Trip must be at least 1 day")) ∧
    (∀ d : Int, 365 < d →
      TripValidator.validate_days d =
        .error (str "Maximum trip duration is 365 days")) ∧
    TripValidator.validate_days 1 = .ok true ∧
    TripValidator.validate_days 365 = .ok true := by
  refine ⟨fun c h => ?_, fun c h => ?_, rfl, rfl,
    fun d h => ?_, fun d h => ?_, rfl, rfl⟩ <;>
    · simp only [TripValidator.validate_people_count, TripValidator.validate_days]
      split_ifs <;> first | rfl | omega

/-- Witness for C4 at the concrete inputs 0, 51, 0, 366. -/
theorem people_days_bounds_witness :
    TripValidator.validate_people_count 0 =
      .error (str "At least 1 traveler is required") ∧
    TripValidator.validate_people_count 51 =
      .error (str "Maximum 50 travelers allowed") ∧
    TripValidator.validate_days 0 = .error (str "Trip must be at least 1 day") ∧
    TripValidator.validate_days 366 =
      .error (str "Maximum trip duration is 365 days") :=
  ⟨people_days_bounds.1 0 (by omega),
   people_days_bounds.2.1 51 (by omega),
   people_days_bounds.2.2.2.2.1 0 (by omega),
   people_days_bounds.2.2.2.2.2.1 366 (by omega)⟩

/-- C5: departure/destination pairs equal after trimming and lowercasing
fail the same-location check with a message containing "cannot be the
same"; pairs that differ after that normalization succeed. -/
theorem same_location_check :
    ∀ a b : Str,
      (pyLower (pyStrip a) = pyLower (pyStrip b) →
        TripValidator.validate_same_location a b =
          .error (str "Departure and destination cannot be the same") ∧
        List.IsInfix (str "cannot be the same")
          (str "Departure and destination cannot be the same")) ∧
      (pyLower (pyStrip a) ≠ pyLower (pyStrip b) →
        TripValidator.validate_same_location a b = .ok true) := by
  intro a b
  constructor
  · intro h
    have hc : pyStrip (pyLower a) = pyStrip (pyLower b) := by
      rw [pyStrip_pyLower, pyStrip_pyLower, h]
    unfold TripValidator.validate_same_location
    rw [if_pos hc]
    exact ⟨rfl, by decide⟩
  · intro h
    unfold TripValidator.validate_same_location
    rw [if_neg]
    intro hc
    exact h (by rw [← pyStrip_pyLower, ← pyStrip_pyLower, hc])

/-- Witness for C5 at " PARIS " vs "paris" (equal after normalization) and
"Paris" vs "London" (different). -/
theorem same_location_check_witness :
    TripValidator.validate_same_location (str " PARIS ") (str "paris") =
      .error (str "Departure and destination cannot be the same") ∧
    TripValidator.validate_same_location (str "Paris") (str "London") =
      .ok true :=
  ⟨((same_location_check (str " PARIS ") (str "paris")).1 (by decide)).1,
   (same_location_check (str "Paris") (str "London")).2 (by decide)⟩

/-- `strLE` is total. -/
theorem strLE_total : ∀ a b : Str, (strLE a b || strLE b a) = true := by
  intro a
  induction a with
  | nil => intro b; cases b <;> simp [strLE]
  | cons x xs ih =>
    intro b
    cases b with
    | nil => simp [strLE]
    | cons y ys =>
      simp only [strLE]
      by_cases h1 : x.toNat < y.toNat
      · simp [h1]
      · by_cases h2 : y.toNat < x.toNat
        · simp [h1, h2]
        · simpa [h1, h2] using ih ys

/-- `strLE` is transitive. -/
theorem strLE_trans :
    ∀ a b c : Str, strLE a b = true → strLE b c = true → strLE a c = true := by
  intro a
  induction a with
  | nil => intro b c _ _; cases c <;> simp [strLE]
  | cons x xs ih =>
    intro b c hab hbc
    cases b with
    | nil => simp [strLE] at hab
    | cons y ys =>
      cases c with
      | nil => simp [strLE] at hbc
      | cons z zs =>
        simp only [strLE] at hab hbc ⊢
        rcases Nat.lt_trichotomy x.toNat y.toNat with hxy | hxy | hxy
        · rcases Nat.lt_trichotomy y.toNat z.toNat with hyz | hyz | hyz
          · simp [show x.toNat < z.toNat by omega]
          · simp [show x.toNat < z.toNat by omega]
          · simp [show ¬ y.toNat < z.toNat by omega, hyz] at hbc
        · rcases Nat.lt_trichotomy y.toNat z.toNat with hyz | hyz | hyz
          · simp [show x.toNat < z.toNat by omega]
          · have h1 : ¬ x.toNat < y.toNat := by omega
            have h2 : ¬ y.toNat < x.toNat := by omega
            have h3 : ¬ y.toNat < z.toNat := by omega
            have h4 : ¬ z.toNat < y.toNat := by omega
            have h5 : ¬ x.toNat < z.toNat := by omega
            have h6 : ¬ z.toNat < x.toNat := by omega
            simp [h1, h2] at hab
            simp [h3, h4] at hbc
            simp [h5, h6]
            exact ih ys zs hab hbc
          · simp [show ¬ y.toNat < z.toNat by omega, hyz] at hbc
        · simp [show ¬ x.toNat < y.toNat by omega, hxy] at hab

/-- After `delete_trip tid`, `get_trip tid` is not-found, whatever the
prior file state. -/
theorem get_trip_after_delete (file : FileContent) (tid : Str) :
    TripStorage.get_trip (TripStorage.delete_trip file tid).1 tid = none := by
  unfold TripStorage.delete_trip TripStorage.get_trip
  by_cases h :
      ((TripStorage.read_data file).filter
        (fun record => !(record.id == tid))).length <
        (TripStorage.read_data file).length
  · rw [if_pos h]
    simp only [TripStorage.read_data, List.find?_eq_none]
    intro r hr
    have := (List.mem_filter.mp hr).2
    simpa using this
  · rw [if_neg h]
    have hlen :
        ((TripStorage.read_data file).filter
          (fun record => !(record.id == tid))).length =
          (TripStorage.read_data file).length :=
      Nat.le_antisymm (List.length_filter_le _ _) (Nat.not_lt.mp h)
    have hall := List.filter_length_eq_length.mp hlen
    rw [List.find?_eq_none]
    intro r hr
    have := hall r hr
    simpa using this

/-- C2: archive round-trip. Saving a record whose generated id is fresh
(the spec's id-uniqueness invariant) returns that id, and reading it back
returns a record equal in all fields to what was saved; deleting the id
after the save makes `get_trip` return not-found; `clear_all` followed by
`get_all_trips` yields the empty sequence. -/
theorem trip_archive_roundtrip :
    ∀ (file : FileContent) (tid ts fc tc : Str) (days people : Int)
      (gt plan : Str),
      (∀ r ∈ TripStorage.read_data file, r.id ≠ tid) →
      (TripStorage.save_trip file tid ts fc tc days people gt plan).2 =
        some tid ∧
      TripStorage.get_trip
        (TripStorage.save_trip file tid ts fc tc days people gt plan).1 tid =
        some ⟨tid, ts, fc, tc, days, people, gt, plan⟩ ∧
      TripStorage.get_trip
        (TripStorage.delete_trip
          (TripStorage.save_trip file tid ts fc tc days people gt plan).1
          tid).1 tid = none ∧
      TripStorage.get_all_trips (TripStorage.clear_all file).1 none = [] := by
  intro file tid ts fc tc days people gt plan hfresh
  refine ⟨rfl, ?_, get_trip_after_delete _ _, by simp [TripStorage.get_all_trips,
    TripStorage.clear_all, TripStorage.read_data]⟩
  unfold TripStorage.save_trip TripStorage.get_trip
  have hgood : ∀ l : List TripRecord, TripStorage.read_data (.good l) = l :=
    fun _ => rfl
  rw [hgood, List.find?_append]
  have hnone :
      (TripStorage.read_data file).find? (fun record => record.id == tid) =
        none := by
    rw [List.find?_eq_none]
    intro r hr
    simpa using hfresh r hr
  rw [hnone]
  simp [List.find?]

/-- C7: when the backing file holds undecodable content, every read-side
operation degrades to the empty collection: `get_all_trips` returns the
empty sequence for every limit and `get_trip` returns not-found for every
id, with no exception (the operations are total). -/
theorem malformed_file_degrades :
    ∀ (limit : Option Int) (tid : Str),
      TripStorage.get_all_trips .malformed limit = [] ∧
      TripStorage.get_trip .malformed tid = none := by
  intro limit tid
  refine ⟨?_, rfl⟩
  unfold TripStorage.get_all_trips TripStorage.read_data
  cases limit with
  | none => simp
  | some n => by_cases hn : n = 0 <;> simp [hn, pySliceTo]

/-- C10: `get_all_trips` with limit 0 behaves exactly like `get_all_trips`
with no limit — the falsy limit is not applied — returning all records
(same length as the decoded file, a permutation of it) sorted newest
first (timestamps non-increasing). -/
theorem get_all_trips_zero_limit :
    ∀ file : FileContent,
      TripStorage.get_all_trips file (some 0) =
        TripStorage.get_all_trips file none ∧
      (TripStorage.get_all_trips file (some 0)).length =
        (TripStorage.read_data file).length ∧
      (TripStorage.get_all_trips file (some 0)).Perm
        (TripStorage.read_data file) ∧
      List.Pairwise (fun a b => strLE b.timestamp a.timestamp = true)
        (TripStorage.get_all_trips file (some 0)) := by
  intro file
  have h0 : TripStorage.get_all_trips file (some 0) =
      (TripStorage.read_data file).mergeSort
        (fun a b => strLE b.timestamp a.timestamp) := by
    simp [TripStorage.get_all_trips]
  refine ⟨by rw [h0]; simp [TripStorage.get_all_trips], ?_, ?_, ?_⟩
  · rw [h0, List.length_mergeSort]
  · rw [h0]; exact List.mergeSort_perm _ _
  · rw [h0]
    exact @List.sorted_mergeSort TripRecord
      (fun a b => strLE b.timestamp a.timestamp)
      (fun a b c hab hbc => strLE_trans _ _ _ hbc hab)
      (fun a b => strLE_total _ _) _

/-- Witness for C2 on the empty archive with a concrete record. -/
theorem trip_archive_roundtrip_witness :
    TripStorage.get_trip
      (TripStorage.save_trip (.good []) (str "20250101_120000")
        (str "2025-01-01T12:00:00") (str "Paris") (str "London") 5 2
        (str "Couple") (str "Day 1: ...")).1 (str "20250101_120000") =
      some ⟨str "20250101_120000", str "2025-01-01T12:00:00", str "Paris",
        str "London", 5, 2, str "Couple", str "Day 1: ..."⟩ :=
  (trip_archive_roundtrip (.good []) (str "20250101_120000")
    (str "2025-01-01T12:00:00") (str "Paris") (str "London") 5 2
    (str "Couple") (str "Day 1: ...") (by simp [TripStorage.read_data])).2.1

/-- C9: an empty or whitespace-only query makes `search` return the empty
sequence with zero transport calls — a short-circuit, not an error. -/
theorem search_empty_query_short_circuit :
    ∀ (transport : Transport) (query : Str),
      pyStrip query = [] →
      LocationService.search transport query = ([], 0) := by
  intro transport query h
  unfold LocationService.search
  rw [if_pos (Or.inr h)]

/-- Witness for C9 at the whitespace query "   " on a transport that would
answer successfully if called. -/
theorem search_empty_query_short_circuit_witness :
    LocationService.search (fun _ => .ok []) (str "   ") = ([], 0) :=
  search_empty_query_short_circuit (fun _ => .ok []) (str "   ") (by decide)

/-- C8 counterexample: on a raw result whose address has both a town and a
(differing) city, the code derives `city` from the city field, not the
town field as the claim's town/city/village precedence predicts. -/
theorem from_nominatim_counterexample :
    (Location.from_nominatim
      ⟨str "X", 0, 0, ⟨some (str "C"), some (str "T"), none, none, none⟩⟩).city =
      some (str "C") ∧
    cityPerClaim ⟨some (str "C"), some (str "T"), none, none, none⟩ =
      some (str "T") ∧
    (Location.from_nominatim
      ⟨str "X", 0, 0, ⟨some (str "C"), some (str "T"), none, none, none⟩⟩).city ≠
      cityPerClaim ⟨some (str "C"), some (str "T"), none, none, none⟩ :=
  ⟨rfl, rfl, by decide⟩

/-- C8 (amended): `city` is the first of the city, town, village fields —
in that precedence order — that is present and non-empty (a present but
empty value is falsy in the `or`-chain and is skipped); when city and town
are both absent or empty the village value passes through as-is, and
`state`/`country` always pass through verbatim. -/
theorem from_nominatim_city_fields :
    ∀ raw : RawPlace,
      ((∃ s, raw.address.city = some s ∧ s ≠ []) →
        (Location.from_nominatim raw).city = raw.address.city) ∧
      ((raw.address.city = none ∨ raw.address.city = some []) →
        ((∃ s, raw.address.town = some s ∧ s ≠ []) →
          (Location.from_nominatim raw).city = raw.address.town) ∧
        ((raw.address.town = none ∨ raw.address.town = some []) →
          (Location.from_nominatim raw).city = raw.address.village)) ∧
      (Location.from_nominatim raw).state = raw.address.state ∧
      (Location.from_nominatim raw).country = raw.address.country := by
  intro raw
  refine ⟨?_, ?_, rfl, rfl⟩
  · rintro ⟨s, hs, hne⟩
    simp [Location.from_nominatim, pyOrS, hs, hne]
  · intro hc
    constructor
    · rintro ⟨s, hs, hne⟩
      rcases hc with hc | hc <;>
        simp [Location.from_nominatim, pyOrS, hc, hs, hne]
    · intro ht
      rcases hc with hc | hc <;> rcases ht with ht | ht <;>
        cases hv : raw.address.village <;>
        simp [Location.from_nominatim, pyOrS, hc, ht, hv]

/-- Witness for C8 (amended) at raw addresses with every field present and
with the city field absent. -/
theorem from_nominatim_city_fields_witness :
    (Location.from_nominatim
      ⟨str "D", 0, 0, ⟨some (str "C"), some (str "T"), some (str "V"),
        some (str "S"), some (str "K")⟩⟩).city = some (str "C") ∧
    (Location.from_nominatim
      ⟨str "D", 0, 0, ⟨none, some (str "T"), some (str "V"), none,
        none⟩⟩).city = some (str "T") :=
  ⟨(from_nominatim_city_fields
      ⟨str "D", 0, 0, ⟨some (str "C"), some (str "T"), some (str "V"),
        some (str "S"), some (str "K")⟩⟩).1 ⟨str "C", rfl, by decide⟩,
   ((from_nominatim_city_fields
      ⟨str "D", 0, 0, ⟨none, some (str "T"), some (str "V"), none,
        none⟩⟩).2.1 (Or.inl rfl)).1 ⟨str "T", rfl, by decide⟩⟩

/-- C1: when every model invocation raises, `generate_trip_plan` does not
raise (it is total); it returns the substituted assistant message's
content, which is non-empty, mentions an error, and asks the user to try
again. -/
theorem generate_trip_plan_fail_soft :
    ∀ (e sysPrompt : Str) (toolExec : ToolCall → Str) (fuel : Nat)
      (query : Str),
      1 ≤ fuel →
      TripGenieAgent.generate_trip_plan (fun _ => .error e) sysPrompt toolExec
          fuel query =
        str "I encountered an error while processing your request: " ++ e ++
          str ". Please try again or rephrase your query." ∧
      TripGenieAgent.generate_trip_plan (fun _ => .error e) sysPrompt toolExec
          fuel query ≠ [] ∧
      List.IsInfix (str "error")
        (TripGenieAgent.generate_trip_plan (fun _ => .error e) sysPrompt
          toolExec fuel query) ∧
      List.IsInfix (str "try again")
        (TripGenieAgent.generate_trip_plan (fun _ => .error e) sysPrompt
          toolExec fuel query) := by
  intro e sysPrompt toolExec fuel query hfuel
  obtain ⟨n, rfl⟩ : ∃ n, fuel = n + 1 := ⟨fuel - 1, by omega⟩
  have hgen : TripGenieAgent.generate_trip_plan (fun _ => .error e) sysPrompt
      toolExec (n + 1) query =
      str "I encountered an error while processing your request: " ++ e ++
        str ". Please try again or rephrase your query." := rfl
  have hsplitA : str "I encountered an error while processing your request: " =
      str "I encountered an " ++ str "error" ++
        str " while processing your request: " := by decide
  have hsplitB : str ". Please try again or rephrase your query." =
      str ". Please " ++ str "try again" ++ str " or rephrase your query." := by
    decide
  refine ⟨hgen, ?_, ?_, ?_⟩
  · rw [hgen]
    intro hnil
    have h1 := (List.append_eq_nil.mp (List.append_eq_nil.mp hnil).1).1
    exact absurd h1 (by decide)
  · rw [hgen, hsplitA]
    refine ⟨str "I encountered an ",
      str " while processing your request: " ++ e ++
        str ". Please try again or rephrase your query.", ?_⟩
    simp [List.append_assoc]
  · rw [hgen, hsplitB]
    refine ⟨str "I encountered an error while processing your request: " ++
      e ++ str ". Please ", str " or rephrase your query.", ?_⟩
    simp [List.append_assoc]

/-- Witness for C1: a model that always raises "boom", fuel 1, a concrete
query — the result is non-empty. -/
theorem generate_trip_plan_fail_soft_witness :
    TripGenieAgent.generate_trip_plan (fun _ => .error (str "boom"))
      (str "sys") (fun _ => str "") 1 (str "plan a trip") ≠ [] :=
  (generate_trip_plan_fail_soft (str "boom") (str "sys") (fun _ => str "") 1
    (str "plan a trip") (by decide)).2.1

set_option maxRecDepth 10000 in
/-- C3 counterexample: on the bundle with both city fields empty, the
same-location check — which fails on that pair — is skipped, so its
message is absent from the collected failure output, contradicting the
claim that the check always runs and every failure message is collected. -/
theorem validate_complete_counterexample :
    TripValidator.validate_same_location [] [] =
      .error (str "Departure and destination cannot be the same") ∧
    TripValidator.validate_complete_trip_input ⟨[], [], 0, 0, none⟩ =
      .error (str "Departure location cannot be empty\nDestination cannot be empty\nAt least 1 traveler is required\nTrip must be at least 1 day") ∧
    ¬ List.IsInfix (str "cannot be the same")
      (str "Departure location cannot be empty\nDestination cannot be empty\nAt least 1 traveler is required\nTrip must be at least 1 day") :=
  ⟨by rfl, by rfl, by decide⟩

/-- C3 (amended): the composite validator collects — without
short-circuiting — the failure messages of the departure-location check,
the destination check, the same-location check (the latter only when both
city fields are non-empty), the people check and the days check, in that
order; when any are present it fails with them joined by newlines, and
otherwise returns the bundle with its notes field sanitized at maximum
length 1000. -/
theorem validate_complete_spec :
    ∀ d : TripValidator.TripData,
      (TripValidator.collectedErrors d = [] →
        TripValidator.validate_complete_trip_input d =
          .ok { d with notes := d.notes.map (fun n => TripValidator.sanitize_text_input n 1000) }) ∧
      (TripValidator.collectedErrors d ≠ [] →
        TripValidator.validate_complete_trip_input d =
          .error (List.intercalate (str "\n")
            (TripValidator.collectedErrors d))) := by
  intro d
  constructor
  · intro h
    simp [TripValidator.validate_complete_trip_input, h]
  · intro h
    simp [TripValidator.validate_complete_trip_input, h]

/-- Witness for C3 (amended): a clean bundle passes with its notes
sanitized; one error-free evaluation through the theorem. -/
theorem validate_complete_spec_witness :
    TripValidator.validate_complete_trip_input
      ⟨str "Paris", str "London", 2, 5, some (str "  <b>nice trip</b>  ")⟩ =
      .ok ⟨str "Paris", str "London", 2, 5, some (str "nice trip")⟩ :=
  ((validate_complete_spec
    ⟨str "Paris", str "London", 2, 5, some (str "  <b>nice trip</b>  ")⟩).1
    (by rfl)).trans (by rfl)

set_option maxRecDepth 10000 in
/-- C6 counterexample: sanitizing `<script>alert(1)</script>` at the
declared default leaves the script content in place (the tag pass strips
the script tags first, so the script-block pass never fires), and a
600-character input is truncated at 500 with the ellipsis marker even
though the claim's default of 1000 predicts no truncation. -/
theorem sanitize_counterexample :
    TripValidator.sanitize_text_input_default
      (str "<script>alert(1)</script>") = str "alert(1)" ∧
    str "alert(1)" ≠ [] ∧
    TripValidator.sanitize_text_input_default (List.replicate 600 'a') =
      List.replicate 500 'a' ++ str "..." ∧
    (List.replicate 600 'a' : Str).length ≤ 1000 :=
  ⟨by rfl, by decide, by rfl, by rw [List.length_replicate]; omega⟩

/-- C6 (amended): `sanitize_text_input` never fails (it is total): it
removes HTML tags, then script blocks whose opening tag survived the tag
pass, then trims; the result is returned unchanged when it fits in
`max_length`, and otherwise is truncated to `max_length` with an appended
ellipsis marker — so the output never exceeds `max_length + 3` — and the
declared default maximum length is 500. -/
theorem sanitize_spec :
    ∀ (text : Str) (max_length : Nat),
      ((pyStrip (TripValidator.removeScript
          (TripValidator.removeTags text))).length ≤ max_length →
        TripValidator.sanitize_text_input text max_length =
          pyStrip (TripValidator.removeScript (TripValidator.removeTags text))) ∧
      (max_length < (pyStrip (TripValidator.removeScript
          (TripValidator.removeTags text))).length →
        TripValidator.sanitize_text_input text max_length =
          (pyStrip (TripValidator.removeScript
            (TripValidator.removeTags text))).take max_length ++ str "...") ∧
      (TripValidator.sanitize_text_input text max_length).length ≤
        max_length + 3 ∧
      TripValidator.sanitize_text_input_default text =
        TripValidator.sanitize_text_input text 500 := by
  intro text max_length
  by_cases htext : text = []
  · subst htext
    refine ⟨fun _ => rfl, ?_, ?_, rfl⟩
    · intro h
      rw [show pyStrip (TripValidator.removeScript
        (TripValidator.removeTags ([] : Str))) = [] from rfl] at h
      simp at h
    · rw [show TripValidator.sanitize_text_input [] max_length = [] from rfl]
      simp
  · have hunf : TripValidator.sanitize_text_input text max_length =
        (if max_length < (pyStrip (TripValidator.removeScript
            (TripValidator.removeTags text))).length
         then (pyStrip (TripValidator.removeScript
            (TripValidator.removeTags text))).take max_length ++ str "..."
         else pyStrip (TripValidator.removeScript
            (TripValidator.removeTags text))) := by
      unfold TripValidator.sanitize_text_input
      rw [if_neg htext]
    refine ⟨?_, ?_, ?_, rfl⟩
    · intro h
      rw [hunf, if_neg (by omega)]
    · intro h
      rw [hunf, if_pos h]
    · rw [hunf]
      by_cases hl : max_length < (pyStrip (TripValidator.removeScript
          (TripValidator.removeTags text))).length
      · rw [if_pos hl]
        have h3 : (str "...").length = 3 := rfl
        rw [List.length_append, List.length_take, h3]
        omega
      · rw [if_neg hl]
        omega

/-- Witness for C6 (amended): a short note passes unchanged after
trimming; "abcdef" at maximum length 3 is truncated with the marker. -/
theorem sanitize_spec_witness :
    TripValidator.sanitize_text_input (str "  hi  ") 500 = str "hi" ∧
    TripValidator.sanitize_text_input (str "abcdef") 3 = str "abc..." :=
  ⟨((sanitize_spec (str "  hi  ") 500).1 (by decide)).trans (by rfl),
   ((sanitize_spec (str "abcdef") 3).2.1 (by decide)).trans (by rfl)⟩
